import Mathlib

/-!
Verification of `src/integrations/custom-teams.py` (Wazuh → MS Teams webhook
notifier) against its natural-language specification.

The Python program is shallowly embedded below:
* JSON values (the parsed alert file and the produced Adaptive Card) are the
  inductive type `JValue`; JSON numbers occurring in alert records are
  modelled as integers, matching the integer ids/levels the program consumes.
* Python dictionary indexing, `int(...)` and `str(...)` coercions are modelled
  by `jget`, `pyInt` and `pyStr`; a raised exception is an `Except.error`.
* The HTTP layer is modelled by a `post` oracle argument: the caller supplies
  what `requests.post` would do for a given URL.
-/

namespace Wazuh

/-- JSON value as produced by `json.load`. Numbers in the alert records the
program consumes are integers, so numbers are modelled as `Int`. -/
inductive JValue where
  | jnull
  | jbool (b : Bool)
  | jnum (n : Int)
  | jstr (s : String)
  | jarr (elems : List JValue)
  | jobj (fields : List (String × JValue))

/-- Association-list lookup, modelling Python dict indexing on the parsed
JSON object (keys are unique in a parsed JSON object). -/
def lookupField (fields : List (String × JValue)) (key : String) : Option JValue :=
  match fields with
  | [] => none
  | (k, v) :: rest => if k = key then some v else lookupField rest key

/-- Python `obj[key]`: a `KeyError` when the key is missing, a `TypeError`
when the value is not a dict. -/
def jget (v : JValue) (key : String) : Except String JValue :=
  match v with
  | .jobj fields =>
    match lookupField fields key with
    | some w => .ok w
    | none => .error ("KeyError: " ++ key)
  | _ => .error ("TypeError: value is not subscriptable by " ++ key)

/-- The `Alert` dataclass of the program. -/
structure Alert where
  rule_id : Int
  rule_level : Int
  rule_description : String
  agent_id : Int
  agent_name : String
  full_log : String

mutual

/-- Python repr of a parsed-JSON value. String escaping inside repr is not
modelled; no claim depends on it. -/
def pyRepr : JValue → String
  | .jnull => "None"
  | .jbool true => "True"
  | .jbool false => "False"
  | .jnum n => toString n
  | .jstr s => "\x27" ++ s ++ "\x27"
  | .jarr xs => "[" ++ pyReprList xs ++ "]"
  | .jobj fs => "\x7b" ++ pyReprFields fs ++ "\x7d"

/-- Comma-separated reprs of the elements of a list. -/
def pyReprList : List JValue → String
  | [] => ""
  | [x] => pyRepr x
  | x :: y :: rest => pyRepr x ++ ", " ++ pyReprList (y :: rest)

/-- Comma-separated reprs of the entries of a dict. -/
def pyReprFields : List (String × JValue) → String
  | [] => ""
  | [(k, v)] => "\x27" ++ k ++ "\x27: " ++ pyRepr v
  | (k, v) :: f :: rest => "\x27" ++ k ++ "\x27: " ++ pyRepr v ++ ", " ++ pyReprFields (f :: rest)

end

/-- Python `str(...)` applied to a parsed-JSON value. -/
def pyStr : JValue → String
  | .jstr s => s
  | v => pyRepr v

/-- Characters stripped by Python `int(str)` around the literal. -/
def isPySpace (c : Char) : Bool :=
  c = ' ' || c = '\t' || c = '\n' || c = '\x0d' || c = '\x0b' || c = '\x0c'

/-- Tail of a valid Python integer literal: digits, with single underscores
allowed only between digits. -/
def pyIntDigitsTail : List Char → Bool
  | [] => true
  | '_' :: c :: rest => c.isDigit && pyIntDigitsTail rest
  | '_' :: [] => false
  | c :: rest => c.isDigit && pyIntDigitsTail rest

/-- A valid Python base-10 integer digit sequence (after the optional sign). -/
def pyIntDigitsOk : List Char → Bool
  | [] => false
  | c :: rest => c.isDigit && pyIntDigitsTail rest

/-- Numeric value of a digit list in the given base (underscores skipped by
the caller). -/
def natFromDigits (base : Nat) (l : List Char) : Nat :=
  l.foldl (fun acc c => acc * base + (c.toNat - 48)) 0

/-- Python `int(s)` for a string argument: strips surrounding whitespace,
accepts an optional sign and a digit sequence with single grouping
underscores; anything else is a `ValueError`. -/
def pyIntOfStr (s : String) : Except String Int :=
  let l := ((s.data.dropWhile isPySpace).reverse.dropWhile isPySpace).reverse
  let signed : Int × List Char :=
    match l with
    | '+' :: t => (1, t)
    | '-' :: t => (-1, t)
    | t => (1, t)
  if pyIntDigitsOk signed.2 then
    .ok (signed.1 * Int.ofNat (natFromDigits 10 (signed.2.filter (fun c => c != '_'))))
  else
    .error ("ValueError: invalid literal for int() with base 10: " ++ pyRepr (.jstr s))

/-- Python `int(...)` applied to a parsed-JSON value: integers pass through,
booleans coerce to 0/1, strings are parsed, everything else is a
`TypeError`. -/
def pyInt : JValue → Except String Int
  | .jnum n => .ok n
  | .jbool b => .ok (if b then 1 else 0)
  | .jstr s => pyIntOfStr s
  | v => .error ("TypeError: int() argument must not be " ++ pyRepr v)

/-- Embedding of `get_alert_details` (reading the already-parsed alert body):
one line per source line 141-146, with the same evaluation order and the
`str(...) or "Wazuh Alert"` fallback of line 143. -/
def get_alert_details (alert_body : JValue) : Except String Alert := do
  let rule_id ← pyInt (← jget (← jget alert_body "rule") "id")
  let rule_level ← pyInt (← jget (← jget alert_body "rule") "level")
  let rule_description0 := pyStr (← jget (← jget alert_body "rule") "description")
  let rule_description := if rule_description0 = "" then "Wazuh Alert" else rule_description0
  let agent_id ← pyInt (← jget (← jget alert_body "agent") "id")
  let agent_name := pyStr (← jget (← jget alert_body "agent") "name")
  let full_log := pyStr (← jget alert_body "full_log")
  return {
    rule_id := rule_id
    rule_level := rule_level
    rule_description := rule_description
    agent_id := agent_id
    agent_name := agent_name
    full_log := full_log }

/-- Embedding of `get_severity_color` (source lines 31-38). -/
def get_severity_color (rule_level : Int) : String :=
  if rule_level ≥ 10 then "attention"
  else if rule_level ≥ 7 then "warning"
  else if rule_level ≥ 4 then "good"
  else "accent"

/-- Embedding of `generate_adaptive_card` (source lines 41-133): the exact
dict literal of the source, with Python f-string interpolations expanded
(`toString` on an `Int` agrees with Python string conversion of an int). -/
def generate_adaptive_card (alert : Alert) : JValue :=
  let severity_color := get_severity_color alert.rule_level
  .jobj [
    ("$schema", .jstr "http://adaptivecards.io/schemas/adaptive-card.json"),
    ("type", .jstr "AdaptiveCard"),
    ("version", .jstr "1.3"),
    ("msteams", .jobj [("width", .jstr "Full")]),
    ("body", .jarr [
      .jobj [
        ("type", .jstr "Container"),
        ("style", .jstr severity_color),
        ("bleed", .jbool true),
        ("items", .jarr [
          .jobj [("type", .jstr "TextBlock"), ("text", .jstr alert.rule_description),
                 ("weight", .jstr "Bolder")]
        ])
      ],
      .jobj [
        ("type", .jstr "RichTextBlock"),
        ("inlines", .jarr [
          .jobj [("type", .jstr "TextRun"), ("text", .jstr "Agent: "),
                 ("weight", .jstr "Bolder")],
          .jobj [("type", .jstr "TextRun"), ("text", .jstr (alert.agent_name ++ " "))],
          .jobj [("type", .jstr "TextRun"),
                 ("text", .jstr ("(ID " ++ toString alert.agent_id ++ ")")),
                 ("italic", .jbool true)]
        ])
      ],
      .jobj [
        ("type", .jstr "RichTextBlock"),
        ("inlines", .jarr [
          .jobj [("type", .jstr "TextRun"), ("text", .jstr "Rule: "),
                 ("weight", .jstr "Bolder")],
          .jobj [("type", .jstr "TextRun"), ("text", .jstr (toString alert.rule_id ++ " "))],
          .jobj [("type", .jstr "TextRun"),
                 ("text", .jstr ("(Level " ++ toString alert.rule_level ++ ")")),
                 ("italic", .jbool true)]
        ])
      ],
      .jobj [
        ("type", .jstr "Container"),
        ("id", .jstr "showToggle"),
        ("spacing", .jstr "Medium"),
        ("separator", .jbool true),
        ("items", .jarr [
          .jobj [
            ("type", .jstr "ActionSet"),
            ("actions", .jarr [
              .jobj [
                ("type", .jstr "Action.ToggleVisibility"),
                ("title", .jstr "Show Full Log ▸"),
                ("targetElements", .jarr [
                  .jobj [("elementId", .jstr "fullLogBlock"), ("isVisible", .jbool true)],
                  .jobj [("elementId", .jstr "showToggle"), ("isVisible", .jbool false)],
                  .jobj [("elementId", .jstr "hideToggle"), ("isVisible", .jbool true)]
                ])
              ]
            ])
          ]
        ])
      ],
      .jobj [
        ("type", .jstr "Container"),
        ("id", .jstr "hideToggle"),
        ("isVisible", .jbool false),
        ("items", .jarr [
          .jobj [
            ("type", .jstr "ActionSet"),
            ("actions", .jarr [
              .jobj [
                ("type", .jstr "Action.ToggleVisibility"),
                ("title", .jstr "Hide Full Log ▾"),
                ("targetElements", .jarr [
                  .jobj [("elementId", .jstr "fullLogBlock"), ("isVisible", .jbool false)],
                  .jobj [("elementId", .jstr "showToggle"), ("isVisible", .jbool true)],
                  .jobj [("elementId", .jstr "hideToggle"), ("isVisible", .jbool false)]
                ])
              ]
            ])
          ]
        ])
      ],
      .jobj [
        ("type", .jstr "Container"),
        ("id", .jstr "fullLogBlock"),
        ("isVisible", .jbool false),
        ("style", .jstr "emphasis"),
        ("bleed", .jbool false),
        ("spacing", .jstr "Small"),
        ("items", .jarr [
          .jobj [("type", .jstr "TextBlock"), ("text", .jstr alert.full_log),
                 ("wrap", .jbool true), ("maxLines", .jnum 0),
                 ("fontType", .jstr "Monospace")]
        ])
      ]
    ]),
    ("fallbackText", .jstr "Wazuh Alert")
  ]

/-- Field lookup on a JSON object value (`none` on a non-object). -/
def objField (v : JValue) (key : String) : Option JValue :=
  match v with
  | .jobj fields => lookupField fields key
  | _ => none

/-- The `body` array of a rendered card. -/
def cardBody (card : JValue) : List JValue :=
  match objField card "body" with
  | some (.jarr xs) => xs
  | _ => []

/-- The body element carrying the given `id`, if any. -/
def findById (card : JValue) (elemId : String) : Option JValue :=
  (cardBody card).find? (fun e =>
    match objField e "id" with
    | some (.jstr s) => s == elemId
    | _ => false)

/-- Initial visibility of the body element with the given id: the declared
`isVisible` value, defaulting to visible when the key is absent (the
Adaptive Card default). -/
def initVisible (card : JValue) (elemId : String) : Bool :=
  match findById card elemId with
  | some e =>
    match objField e "isVisible" with
    | some (.jbool b) => b
    | _ => true
  | none => true

/-- The `(elementId, isVisible)` pairs declared by the `targetElements` of
the single toggle action of the body element with the given id. -/
def toggleTargets (card : JValue) (elemId : String) : List (String × Bool) :=
  match findById card elemId with
  | some e =>
    match objField e "items" with
    | some (.jarr [actionSet]) =>
      match objField actionSet "actions" with
      | some (.jarr [action]) =>
        match objField action "targetElements" with
        | some (.jarr tgts) =>
          tgts.filterMap (fun t =>
            match objField t "elementId", objField t "isVisible" with
            | some (.jstr eid), some (.jbool b) => some (eid, b)
            | _, _ => none)
        | _ => []
      | _ => []
    | _ => []
  | none => []

/-- Client-side visibility state of the three toggle-wired card elements. -/
structure DocState where
  fullLogVisible : Bool
  showToggleVisible : Bool
  hideToggleVisible : Bool
deriving DecidableEq

/-- Apply one declared `(elementId, isVisible)` assignment to the state. -/
def applyTarget (s : DocState) (t : String × Bool) : DocState :=
  if t.1 = "fullLogBlock" then { s with fullLogVisible := t.2 }
  else if t.1 = "showToggle" then { s with showToggleVisible := t.2 }
  else if t.1 = "hideToggle" then { s with hideToggleVisible := t.2 }
  else s

/-- Apply a toggle action: all its declared assignments, in order. -/
def applyTargets (s : DocState) (ts : List (String × Bool)) : DocState :=
  ts.foldl applyTarget s

/-- The document state the card declares initially. -/
def initState (card : JValue) : DocState :=
  { fullLogVisible := initVisible card "fullLogBlock"
    showToggleVisible := initVisible card "showToggle"
    hideToggleVisible := initVisible card "hideToggle" }

/-- One client-side step: activating a currently visible toggle applies the
visibility assignments that toggle declares in the card. -/
inductive CardStep (card : JValue) : DocState → DocState → Prop where
  | activateShow (s : DocState) : s.showToggleVisible = true →
      CardStep card s (applyTargets s (toggleTargets card "showToggle"))
  | activateHide (s : DocState) : s.hideToggleVisible = true →
      CardStep card s (applyTargets s (toggleTargets card "hideToggle"))

/-- Document states reachable from the initial state of the card by toggle
activations. -/
inductive CardReachable (card : JValue) : DocState → Prop where
  | init : CardReachable card (initState card)
  | step (s t : DocState) : CardReachable card s → CardStep card s t →
      CardReachable card t

/-- The container the card renders first (the styled header). -/
def headerBlock (card : JValue) : JValue := (cardBody card).getD 0 .jnull

/-- The single text block inside the `items` of a container. -/
def soleItem (v : JValue) : JValue :=
  match objField v "items" with
  | some (.jarr [tb]) => tb
  | _ => .jnull

/-- The `style` token of the header container. -/
def headerStyle (card : JValue) : Option JValue := objField (headerBlock card) "style"

/-- The agent rich-text line (second body element). -/
def agentLine (card : JValue) : JValue := (cardBody card).getD 1 .jnull

/-- The rule rich-text line (third body element). -/
def ruleLine (card : JValue) : JValue := (cardBody card).getD 2 .jnull

/-- The `i`-th inline text run of a rich-text block. -/
def inlineAt (v : JValue) (i : Nat) : JValue :=
  match objField v "inlines" with
  | some (.jarr xs) => xs.getD i .jnull
  | _ => .jnull

/-- The concatenation of the `text` fields of the inline runs of a rich-text block:
runs, i.e. the plain text a client shows for the line. -/
def concatInlines (v : JValue) : String :=
  match objField v "inlines" with
  | some (.jarr xs) =>
    xs.foldl (fun acc run =>
      acc ++ (match objField run "text" with
              | some (.jstr s) => s
              | _ => "")) ""
  | _ => ""

/-- The full-log container of a card (the body element with id
`fullLogBlock`). -/
def fullLogBlock (card : JValue) : JValue := (findById card "fullLogBlock").getD .jnull

/-- HTML5 named character references, with and without the legacy
semicolon-less forms, as in the table Python consults. The table here is a
representative subset of the full HTML5 table (over two thousand entries);
all entries present have the exact replacement and semicolon behaviour of
the full table. -/
def namedRefs : List (String × String) := [
  ("amp;", "&"), ("amp", "&"), ("AMP;", "&"), ("AMP", "&"),
  ("lt;", "<"), ("lt", "<"), ("LT;", "<"), ("LT", "<"),
  ("gt;", ">"), ("gt", ">"), ("GT;", ">"), ("GT", ">"),
  ("quot;", "\""), ("quot", "\""), ("QUOT;", "\""), ("QUOT", "\""),
  ("apos;", "\x27"),
  ("nbsp;", " "), ("nbsp", " "),
  ("copy;", "©"), ("copy", "©"),
  ("reg;", "®"), ("reg", "®"),
  ("sect;", "§"), ("sect", "§"),
  ("middot;", "·"), ("middot", "·"),
  ("plusmn;", "±"), ("plusmn", "±"),
  ("times;", "×"), ("times", "×"),
  ("divide;", "÷"), ("divide", "÷"),
  ("frac12;", "½"), ("frac12", "½")]

/-- Numeric character references the HTML5 standard remaps instead of taking
the codepoint literally (the Windows-1252 block and NUL/CR). -/
def invalidCharrefs : List (Nat × String) := [
  (0x00, "�"), (0x0d, "\x0d"), (0x80, "€"), (0x81, "\x81"),
  (0x82, "‚"), (0x83, "ƒ"), (0x84, "„"), (0x85, "…"),
  (0x86, "†"), (0x87, "‡"), (0x88, "ˆ"), (0x89, "‰"),
  (0x8a, "Š"), (0x8b, "‹"), (0x8c, "Œ"), (0x8d, "\x8d"),
  (0x8e, "Ž"), (0x8f, "\x8f"), (0x90, "\x90"), (0x91, "‘"),
  (0x92, "’"), (0x93, "“"), (0x94, "”"), (0x95, "•"),
  (0x96, "–"), (0x97, "—"), (0x98, "˜"), (0x99, "™"),
  (0x9a, "š"), (0x9b, "›"), (0x9c, "œ"), (0x9d, "\x9d"),
  (0x9e, "ž"), (0x9f, "Ÿ")]

/-- Codepoints the HTML5 standard drops from numeric character references
(C0/C1 controls not remapped above, plus noncharacters). -/
def isInvalidCodepoint (n : Nat) : Bool :=
  (1 ≤ n && n ≤ 8) || (0xe ≤ n && n ≤ 0x1f) || (0x7f ≤ n && n ≤ 0x9f) ||
  (0xfdd0 ≤ n && n ≤ 0xfdef) || n % 0x10000 = 0xfffe || n % 0x10000 = 0xffff

/-- Replacement text of a numeric character reference with value `num`:
remapped values first, then the surrogate/overflow replacement character,
then dropped codepoints, else the codepoint itself. -/
def charrefReplacement (num : Nat) : List Char :=
  match invalidCharrefs.lookup num with
  | some repl => repl.data
  | none =>
    if (0xD800 ≤ num && num ≤ 0xDFFF) || 0x10FFFF < num then ['�']
    else if isInvalidCodepoint num then []
    else [Char.ofNat num]

/-- Characters allowed inside a named character reference (everything except
whitespace and the delimiter characters). -/
def allowedNameChar (c : Char) : Bool :=
  !(c = '\t' || c = '\n' || c = '\x0c' || c = ' ' || c = '<' || c = '&' ||
    c = '#' || c = ';')

/-- Hexadecimal digit test. -/
def isHexChar (c : Char) : Bool :=
  c.isDigit || ('a' ≤ c && c ≤ 'f') || ('A' ≤ c && c ≤ 'F')

/-- Value of one hexadecimal digit. -/
def hexDigitVal (c : Char) : Nat :=
  if c.isDigit then c.toNat - 48
  else if 'a' ≤ c && c ≤ 'f' then c.toNat - 87
  else c.toNat - 55

/-- Value of a hexadecimal digit list. -/
def natFromHexDigits (l : List Char) : Nat :=
  l.foldl (fun acc c => acc * 16 + hexDigitVal c) 0

/-- Longest strict-prefix lookup used for semicolon-less legacy references:
try prefixes of `s` of length `x`, `x - 1`, ..., `2` against the table. -/
def lookupLegacyRef (s : List Char) : Nat → Option (List Char × Nat)
  | 0 => none
  | x + 1 =>
    if x + 1 < 2 then none
    else
      match namedRefs.lookup (String.mk (s.take (x + 1))) with
      | some repl => some (repl.data, x + 1)
      | none => lookupLegacyRef s x

/-- Attempt to read one character reference right after an ampersand.
Returns the replacement text and how many characters of `rest` the
reference occupies, or `none` when no reference matches there. This mirrors
the stdlib regex `&(#[0-9]+;?|#[xX][0-9a-fA-F]+;?|[^\t\n\x0c <&#;]\x7b1,32\x7d;?)`
and its replacement callback: an exact table hit first, then the longest
known prefix with the unconsumed tail kept literally, else the whole match
kept literally. -/
def matchCharref (rest : List Char) : Option (List Char × Nat) :=
  match rest with
  | '#' :: t =>
    match t with
    | c :: t2 =>
      if c = 'x' || c = 'X' then
        let ds := t2.takeWhile isHexChar
        if ds.isEmpty then none
        else
          let semi := if (t2.drop ds.length).head? = some ';' then 1 else 0
          some (charrefReplacement (natFromHexDigits ds), 2 + ds.length + semi)
      else
        let ds := t.takeWhile Char.isDigit
        if ds.isEmpty then none
        else
          let semi := if (t.drop ds.length).head? = some ';' then 1 else 0
          some (charrefReplacement (natFromDigits 10 ds), 1 + ds.length + semi)
    | [] => none
  | _ =>
    let nameChars := (rest.takeWhile allowedNameChar).take 32
    if nameChars.isEmpty then none
    else
      let semi : List Char :=
        if (rest.drop nameChars.length).head? = some ';' then [';'] else []
      let s := nameChars ++ semi
      match namedRefs.lookup (String.mk s) with
      | some repl => some (repl.data, s.length)
      | none =>
        match lookupLegacyRef s (s.length - 1) with
        | some (repl, x) => some (repl ++ s.drop x, s.length)
        | none => none

/-- Scanner behind `unescape`: copy characters, and at each ampersand
replace the character reference that starts there, if any. The fuel is a
termination device; `fuel ≥ l.length` always suffices because every step
consumes at least one character. -/
def unescapeAux : Nat → List Char → List Char
  | 0, l => l
  | _ + 1, [] => []
  | fuel + 1, c :: rest =>
    if c = '&' then
      match matchCharref rest with
      | some (repl, k) => repl ++ unescapeAux fuel (rest.drop k)
      | none => c :: unescapeAux fuel rest
    else c :: unescapeAux fuel rest

/-- Model of the stdlib HTML-entity decoder the program applies to the
webhook URL (source line 160): strings without an ampersand are returned
unchanged, otherwise every character reference is replaced. -/
def unescape (s : String) : String :=
  if s.data.contains '&' then String.mk (unescapeAux s.data.length s.data) else s

/-- JSON string escaping for serialization. Control characters beyond the
common escapes and non-ASCII escaping are not modelled; no claim depends on
the payload text. -/
def jsonEscapeChar (c : Char) : List Char :=
  if c = '"' then ['\\', '"']
  else if c = '\\' then ['\\', '\\']
  else if c = '\n' then ['\\', 'n']
  else if c = '\t' then ['\\', 't']
  else if c = '\x0d' then ['\\', 'r']
  else [c]

/-- Serialization of a JSON string literal. -/
def jsonDumpsStr (s : String) : String :=
  "\"" ++ String.mk ((s.data.map jsonEscapeChar).flatten) ++ "\""

mutual

/-- Model of `json.dumps` with its default separators. -/
def jsonDumps : JValue → String
  | .jnull => "null"
  | .jbool true => "true"
  | .jbool false => "false"
  | .jnum n => toString n
  | .jstr s => jsonDumpsStr s
  | .jarr xs => "[" ++ jsonDumpsList xs ++ "]"
  | .jobj fs => "\x7b" ++ jsonDumpsFields fs ++ "\x7d"

/-- Comma-separated serialization of array elements. -/
def jsonDumpsList : List JValue → String
  | [] => ""
  | [x] => jsonDumps x
  | x :: y :: rest => jsonDumps x ++ ", " ++ jsonDumpsList (y :: rest)

/-- Comma-separated serialization of object entries. -/
def jsonDumpsFields : List (String × JValue) → String
  | [] => ""
  | [(k, v)] => jsonDumpsStr k ++ ": " ++ jsonDumps v
  | (k, v) :: f :: rest =>
    jsonDumpsStr k ++ ": " ++ jsonDumps v ++ ", " ++ jsonDumpsFields (f :: rest)

end

/-- Log levels of the `logging` calls the dispatcher makes. -/
inductive LogLevel where
  | debug
  | info
  | error
deriving DecidableEq

/-- One log line: level and message. -/
structure LogEntry where
  level : LogLevel
  msg : String
deriving DecidableEq

/-- The HTTP response object as far as the program inspects it. -/
structure HttpResponse where
  status_code : Nat
  text : String
deriving DecidableEq

/-- Model of the ok flag of the HTTP response: everything except a 4xx/5xx status. -/
def respOk (r : HttpResponse) : Bool :=
  !(400 ≤ r.status_code && r.status_code < 600)

/-- Outcome of the HTTP POST: either a response object, or a transport-level
exception (connection error, timeout) carrying its message. -/
inductive PostOutcome where
  | success (r : HttpResponse)
  | failure (e : String)

/-- The two informational log lines `send_message` emits before posting. -/
def sendLogs (adaptive_card : JValue) (webhook : String) : List LogEntry :=
  [{ level := .info, msg := "Sending message to Power Automate: " ++ jsonDumps adaptive_card },
   { level := .info, msg := "Using webhook URL: " ++ webhook }]

/-- Embedding of `send_message` (source lines 158-174). The HTTP layer is
the oracle `post`; a transport-level exception from it is re-raised (the
source has no handler), while a response object is only inspected for
logging. The returned value is the list of log lines the call appends. -/
def send_message (adaptive_card : JValue) (webhook : String)
    (post : String → PostOutcome) : Except String (List LogEntry) :=
  let webhook2 := unescape webhook
  match post webhook2 with
  | .failure e => .error e
  | .success r =>
    if !(respOk r) then
      .ok (sendLogs adaptive_card webhook2 ++
        [{ level := .error, msg := "Failed to send message!" },
         { level := .error,
           msg := "Response code: " ++ toString r.status_code ++
             ", response body: " ++ r.text }])
    else
      .ok (sendLogs adaptive_card webhook2 ++
        [{ level := .info, msg := "Successfully sent message to Power Automate" }])

/-- Python `args[i]`: an `IndexError` when the index is out of range. -/
def argGet (args : List String) (i : Nat) : Except String String :=
  match args[i]? with
  | some v => .ok v
  | none => .error "IndexError: list index out of range"

/-- The alert-to-delivery pipeline run on a given alert path and webhook
URL: read and validate the alert, render the card, send it. `readFile`
models the filesystem plus JSON parsing (source lines 137-138). -/
def runPipeline (readFile : String → Except String JValue)
    (post : String → PostOutcome) (path webhook : String) :
    Except String (List LogEntry) := do
  let alert_body ← readFile path
  let alert ← get_alert_details alert_body
  send_message (generate_adaptive_card alert) webhook post

/-- Embedding of `handle_alert` (source lines 177-182): `args` is
`sys.argv`, so `args[1]` is the first positional argument and `args[3]` the
third; `args[2]` is never read. -/
def handle_alert (readFile : String → Except String JValue)
    (post : String → PostOutcome) (args : List String) :
    Except String (List LogEntry) := do
  let alert_file_path ← argGet args 1
  let webhook ← argGet args 3
  let alert_body ← readFile alert_file_path
  let alert ← get_alert_details alert_body
  send_message (generate_adaptive_card alert) webhook post

/-- Path lookup into a parsed record: the value sitting under a sequence of
object keys, `none` when any hop is missing or not an object. -/
def fieldAt : JValue → List String → Option JValue
  | j, [] => some j
  | j, k :: ks =>
    match jget j k with
    | .ok v => fieldAt v ks
    | .error _ => none

/-- Whether the integer coercion the reader applies to the value at `path`
fails (false when the field is absent, which is a distinct failure). -/
def intCoercionFails (j : JValue) (path : List String) : Bool :=
  match fieldAt j path with
  | some v =>
    match pyInt v with
    | .ok _ => false
    | .error _ => true
  | none => false

/-- The alert of end-to-end scenario 1 of the specification. -/
def alertScenario1 : Alert :=
  { rule_id := 100, rule_level := 12, rule_description := "Test",
    agent_id := 1, agent_name := "srv1", full_log := "x" }

/-- An alert with a negative rule level (the detection engine never emits
one, but the renderer is total). -/
def alertNegativeLevel : Alert :=
  { rule_id := 1, rule_level := -5, rule_description := "d",
    agent_id := 2, agent_name := "n", full_log := "l" }

/-- An otherwise complete alert record whose `rule` object has no
`description` key. -/
def jNoDescription : JValue :=
  .jobj [("rule", .jobj [("id", .jnum 1), ("level", .jnum 3)]),
         ("agent", .jobj [("id", .jnum 2), ("name", .jstr "a")]),
         ("full_log", .jstr "l")]

/-- An alert record whose `rule.description` is present and empty. -/
def jEmptyDescription : JValue :=
  .jobj [("rule", .jobj [("id", .jnum 100), ("level", .jnum 3), ("description", .jstr "")]),
         ("agent", .jobj [("id", .jnum 1), ("name", .jstr "srv")]),
         ("full_log", .jstr "x")]

/-- The alert the reader produces from `jEmptyDescription`. -/
def alertEmptyDescription : Alert :=
  { rule_id := 100, rule_level := 3, rule_description := "Wazuh Alert",
    agent_id := 1, agent_name := "srv", full_log := "x" }

/-- An alert record missing the required `agent.id` field. -/
def jMissingAgentId : JValue :=
  .jobj [("rule", .jobj [("id", .jnum 100), ("level", .jnum 7), ("description", .jstr "d")]),
         ("agent", .jobj [("name", .jstr "web01")]),
         ("full_log", .jstr "log line")]

/-- An HTTP oracle whose POST always yields a 500 response. -/
def post500 : String → PostOutcome :=
  fun _ => .success { status_code := 500, text := "oops" }

/-- An HTTP oracle whose POST always raises a transport-level exception. -/
def postConnFail : String → PostOutcome :=
  fun _ => .failure "ConnectionError: timeout"

/-- A filesystem oracle on which every read raises. -/
def readFileNone : String → Except String JValue :=
  fun _ => .error "FileNotFoundError"

/-- An argument vector: program name, alert path, unused slot, webhook URL,
and one extra argument. -/
def argsExample : List String :=
  ["script", "alert.json", "unused", "https://hook.example", "extra1"]

/-- Bind of a successful `Except` computation. -/
theorem except_bind_ok {α β ε : Type} (a : α) (f : α → Except ε β) :
    (Except.ok a >>= f) = f a := rfl

/-- Bind of a failed `Except` computation. -/
theorem except_bind_err {α β ε : Type} (e : ε) (f : α → Except ε β) :
    ((Except.error e : Except ε α) >>= f) = Except.error e := rfl

/-- Inversion of a successful alert read: every required field was present,
every numeric coercion succeeded, and each `Alert` field is the coerced
source value (with the description fallback applied). -/
theorem get_alert_details_ok_inv (j : JValue) (a : Alert)
    (h : get_alert_details j = .ok a) :
    ∃ vri vrl vd vai van vfl,
      fieldAt j ["rule", "id"] = some vri ∧ pyInt vri = .ok a.rule_id ∧
      fieldAt j ["rule", "level"] = some vrl ∧ pyInt vrl = .ok a.rule_level ∧
      fieldAt j ["rule", "description"] = some vd ∧
        a.rule_description = (if pyStr vd = "" then "Wazuh Alert" else pyStr vd) ∧
      fieldAt j ["agent", "id"] = some vai ∧ pyInt vai = .ok a.agent_id ∧
      fieldAt j ["agent", "name"] = some van ∧ a.agent_name = pyStr van ∧
      fieldAt j ["full_log"] = some vfl ∧ a.full_log = pyStr vfl := by
  unfold get_alert_details at h
  cases h1 : jget j "rule" with
  | error e => simp only [h1, except_bind_err] at h; exact Except.noConfusion h
  | ok rule =>
  simp only [h1, except_bind_ok] at h
  cases h2 : jget rule "id" with
  | error e => simp only [h2, except_bind_err] at h; exact Except.noConfusion h
  | ok vri =>
  simp only [h2, except_bind_ok] at h
  cases h3 : pyInt vri with
  | error e => simp only [h3, except_bind_err] at h; exact Except.noConfusion h
  | ok ri =>
  simp only [h3, except_bind_ok] at h
  cases h4 : jget rule "level" with
  | error e => simp only [h4, except_bind_err] at h; exact Except.noConfusion h
  | ok vrl =>
  simp only [h4, except_bind_ok] at h
  cases h5 : pyInt vrl with
  | error e => simp only [h5, except_bind_err] at h; exact Except.noConfusion h
  | ok rl =>
  simp only [h5, except_bind_ok] at h
  cases h6 : jget rule "description" with
  | error e => simp only [h6, except_bind_err] at h; exact Except.noConfusion h
  | ok vd =>
  simp only [h6, except_bind_ok] at h
  cases h7 : jget j "agent" with
  | error e => simp only [h7, except_bind_err] at h; exact Except.noConfusion h
  | ok agent =>
  simp only [h7, except_bind_ok] at h
  cases h8 : jget agent "id" with
  | error e => simp only [h8, except_bind_err] at h; exact Except.noConfusion h
  | ok vai =>
  simp only [h8, except_bind_ok] at h
  cases h9 : pyInt vai with
  | error e => simp only [h9, except_bind_err] at h; exact Except.noConfusion h
  | ok ai =>
  simp only [h9, except_bind_ok] at h
  cases h10 : jget agent "name" with
  | error e => simp only [h10, except_bind_err] at h; exact Except.noConfusion h
  | ok van =>
  simp only [h10, except_bind_ok] at h
  cases h11 : jget j "full_log" with
  | error e => simp only [h11, except_bind_err] at h; exact Except.noConfusion h
  | ok vfl =>
  simp only [h11, except_bind_ok, pure, Except.pure, Except.ok.injEq] at h
  subst h
  refine ⟨vri, vrl, vd, vai, van, vfl, ?_, h3, ?_, h5, ?_, rfl, ?_, h9, ?_, rfl, ?_, rfl⟩
  · simp [fieldAt, h1, h2]
  · simp [fieldAt, h1, h4]
  · simp [fieldAt, h1, h6]
  · simp [fieldAt, h7, h8]
  · simp [fieldAt, h7, h10]
  · simp [fieldAt, h11]

/-- All document states reachable from the initial state of a rendered card:
either the initial state (show-toggle only) or the expanded state (full-log
block and hide-toggle). -/
theorem reachable_state_cases (a : Alert) (s : DocState)
    (h : CardReachable (generate_adaptive_card a) s) :
    s = { fullLogVisible := false, showToggleVisible := true, hideToggleVisible := false } ∨
    s = { fullLogVisible := true, showToggleVisible := false, hideToggleVisible := true } := by
  induction h with
  | init => exact Or.inl rfl
  | step s t hs hstep ih =>
    cases hstep with
    | activateShow hvis =>
      rcases ih with h0 | h1
      · subst h0; exact Or.inr rfl
      · subst h1; exact Bool.noConfusion hvis
    | activateHide hvis =>
      rcases ih with h0 | h1
      · subst h0; exact Bool.noConfusion hvis
      · subst h1; exact Or.inl rfl

/-- C1 counterexample: for the record `jNoDescription`, whose
`rule.description` is absent, the reader raises a `KeyError` instead of
falling back to "Wazuh Alert", so the absent half of the claim fails. -/
theorem c1_absent_description_raises :
    fieldAt jNoDescription ["rule", "description"] = none ∧
    get_alert_details jNoDescription = .error "KeyError: description" :=
  ⟨rfl, rfl⟩

/-- C1 (amended): whenever the reader returns an Alert, the source
`rule.description` was present, and `rule_description` is the source value
passed through `str` unchanged unless that value is empty, in which case it
is the literal "Wazuh Alert"; an absent description is an error, not a
fallback. -/
theorem c1_description_fallback (j : JValue) (a : Alert)
    (h : get_alert_details j = .ok a) :
    ∃ d, fieldAt j ["rule", "description"] = some d ∧
      a.rule_description = (if pyStr d = "" then "Wazuh Alert" else pyStr d) := by
  obtain ⟨vri, vrl, vd, vai, van, vfl, f1, p1, f2, p2, f3, hd, f4, p4, f5, hn, f6, hl⟩ :=
    get_alert_details_ok_inv j a h
  exact ⟨vd, f3, hd⟩

/-- C1 witness: the record with a present-but-empty description is read
successfully and its description is the fallback string. -/
theorem c1_description_fallback_witness :
    alertEmptyDescription.rule_description = "Wazuh Alert" := by
  obtain ⟨d, hd, hdesc⟩ :=
    c1_description_fallback jEmptyDescription alertEmptyDescription rfl
  have h0 : fieldAt jEmptyDescription ["rule", "description"] = some (JValue.jstr "") := rfl
  rw [h0] at hd
  injection hd with hd2
  subst hd2
  exact hdesc.trans rfl

/-- C2: the severity style token is a total function of the rule level with
four inclusive-lower-bound tiers — at least 10 is "attention", 7 to 9 is
"warning", 4 to 6 is "good", 0 to 3 is "accent" — and the eight sample
levels map as the specification requires. -/
theorem c2_severity_mapping (n : Int) :
    (10 ≤ n → get_severity_color n = "attention") ∧
    (7 ≤ n → n ≤ 9 → get_severity_color n = "warning") ∧
    (4 ≤ n → n ≤ 6 → get_severity_color n = "good") ∧
    (0 ≤ n → n ≤ 3 → get_severity_color n = "accent") ∧
    get_severity_color 0 = "accent" ∧ get_severity_color 3 = "accent" ∧
    get_severity_color 4 = "good" ∧ get_severity_color 6 = "good" ∧
    get_severity_color 7 = "warning" ∧ get_severity_color 9 = "warning" ∧
    get_severity_color 10 = "attention" ∧ get_severity_color 15 = "attention" := by
  refine ⟨?_, ?_, ?_, ?_, ?_, ?_, ?_, ?_, ?_, ?_, ?_, ?_⟩ <;>
    intros <;> unfold get_severity_color <;> split_ifs <;> first | rfl | omega

/-- C2 witness: one sample from each tier through the tier implications. -/
theorem c2_severity_mapping_witness :
    get_severity_color 12 = "attention" ∧ get_severity_color 8 = "warning" ∧
    get_severity_color 5 = "good" ∧ get_severity_color 2 = "accent" :=
  ⟨(c2_severity_mapping 12).1 (by decide),
   (c2_severity_mapping 8).2.1 (by decide) (by decide),
   (c2_severity_mapping 5).2.2.1 (by decide) (by decide),
   (c2_severity_mapping 2).2.2.2.1 (by decide) (by decide)⟩

/-- C3: for every rendered card, the card declares the show-toggle visible
and the full-log block and hide-toggle hidden; in every document state
reachable by activating visible toggles exactly one of the full-log block
and the show-toggle is visible; one show-toggle activation yields exactly
the full-log-plus-hide-toggle state; and the hide-toggle activation is the
exact inverse three-way flip. -/
theorem c3_toggle_invariant (a : Alert) :
    initState (generate_adaptive_card a) =
      { fullLogVisible := false, showToggleVisible := true, hideToggleVisible := false } ∧
    (∀ s, CardReachable (generate_adaptive_card a) s →
      (s.fullLogVisible = true ∧ s.showToggleVisible = false) ∨
      (s.fullLogVisible = false ∧ s.showToggleVisible = true)) ∧
    applyTargets
        { fullLogVisible := false, showToggleVisible := true, hideToggleVisible := false }
        (toggleTargets (generate_adaptive_card a) "showToggle") =
      { fullLogVisible := true, showToggleVisible := false, hideToggleVisible := true } ∧
    applyTargets
        { fullLogVisible := true, showToggleVisible := false, hideToggleVisible := true }
        (toggleTargets (generate_adaptive_card a) "hideToggle") =
      { fullLogVisible := false, showToggleVisible := true, hideToggleVisible := false } := by
  refine ⟨rfl, fun s hs => ?_, rfl, rfl⟩
  rcases reachable_state_cases a s hs with h | h
  · subst h; exact Or.inr ⟨rfl, rfl⟩
  · subst h; exact Or.inl ⟨rfl, rfl⟩

/-- C3 witness: the invariant holds in the initial state of the scenario-1
card. -/
theorem c3_toggle_invariant_witness :
    ((initState (generate_adaptive_card alertScenario1)).fullLogVisible = true ∧
     (initState (generate_adaptive_card alertScenario1)).showToggleVisible = false) ∨
    ((initState (generate_adaptive_card alertScenario1)).fullLogVisible = false ∧
     (initState (generate_adaptive_card alertScenario1)).showToggleVisible = true) :=
  (c3_toggle_invariant alertScenario1).2.1 (initState (generate_adaptive_card alertScenario1))
    CardReachable.init

/-- C4: when the POST completes with a non-success status, `send_message`
returns normally and its log ends with error lines carrying the status code
and response body; when the POST raises a transport-level failure, the
exception propagates uncaught out of `send_message`. -/
theorem c4_send_response_handling (adaptive_card : JValue) (webhook : String)
    (post : String → PostOutcome) :
    (∀ r, post (unescape webhook) = .success r → respOk r = false →
      send_message adaptive_card webhook post =
        .ok (sendLogs adaptive_card (unescape webhook) ++
          [{ level := .error, msg := "Failed to send message!" },
           { level := .error,
             msg := "Response code: " ++ toString r.status_code ++
               ", response body: " ++ r.text }])) ∧
    (∀ e, post (unescape webhook) = .failure e →
      send_message adaptive_card webhook post = .error e) := by
  constructor
  · intro r hpost hok
    simp [send_message, hpost, hok]
  · intro e hpost
    simp [send_message, hpost]

/-- C4 witness: a 500 response is logged and returned normally; a raised
connection error propagates. -/
theorem c4_send_response_handling_witness :
    send_message (.jobj []) "https://h" post500 =
      .ok (sendLogs (.jobj []) (unescape "https://h") ++
        [{ level := .error, msg := "Failed to send message!" },
         { level := .error, msg := "Response code: 500, response body: oops" }]) ∧
    send_message (.jobj []) "https://h" postConnFail = .error "ConnectionError: timeout" :=
  ⟨(c4_send_response_handling (.jobj []) "https://h" post500).1
      { status_code := 500, text := "oops" } rfl rfl,
   (c4_send_response_handling (.jobj []) "https://h" postConnFail).2
      "ConnectionError: timeout" rfl⟩

/-- C5: the reader never returns an Alert when any of the six required
fields is missing or when the integer coercion of `rule.id`, `rule.level`
or `agent.id` fails. -/
theorem c5_required_field_errors (j : JValue)
    (h : ((fieldAt j ["rule", "id"]).isNone || (fieldAt j ["rule", "level"]).isNone ||
          (fieldAt j ["rule", "description"]).isNone || (fieldAt j ["agent", "id"]).isNone ||
          (fieldAt j ["agent", "name"]).isNone || (fieldAt j ["full_log"]).isNone ||
          intCoercionFails j ["rule", "id"] || intCoercionFails j ["rule", "level"] ||
          intCoercionFails j ["agent", "id"]) = true) :
    (get_alert_details j).isOk = false := by
  cases hg : get_alert_details j with
  | error e => rfl
  | ok a =>
    exfalso
    obtain ⟨vri, vrl, vd, vai, van, vfl, f1, p1, f2, p2, f3, hd, f4, p4, f5, hn, f6, hl⟩ :=
      get_alert_details_ok_inv j a hg
    rw [f1, f2, f3, f4, f5, f6] at h
    simp [intCoercionFails, f1, f2, f4, p1, p2, p4] at h

/-- C5 witness: the record missing `agent.id` is rejected. -/
theorem c5_required_field_errors_witness :
    (get_alert_details jMissingAgentId).isOk = false :=
  c5_required_field_errors jMissingAgentId (by rfl)

/-- C6: for every alert, the full-log container of the card is declared hidden
and its single text block carries the `full_log` string of the alert exactly
(same `String`, no truncation or escaping), with wrapping on, no line cap
and a monospace font. -/
theorem c6_full_log_block (a : Alert) :
    objField (fullLogBlock (generate_adaptive_card a)) "isVisible" = some (.jbool false) ∧
    objField (soleItem (fullLogBlock (generate_adaptive_card a))) "text" =
      some (.jstr a.full_log) ∧
    objField (soleItem (fullLogBlock (generate_adaptive_card a))) "wrap" =
      some (.jbool true) ∧
    objField (soleItem (fullLogBlock (generate_adaptive_card a))) "maxLines" =
      some (.jnum 0) ∧
    objField (soleItem (fullLogBlock (generate_adaptive_card a))) "fontType" =
      some (.jstr "Monospace") :=
  ⟨rfl, rfl, rfl, rfl, rfl⟩

/-- C7: for the scenario-1 alert, the header container has style
"attention" with the bold description "Test", the agent line reads
"Agent: srv1 (ID 1)" with a bold label and an italic parenthesized id, and
the rule line reads "Rule: 100 (Level 12)" with a bold label and an italic
parenthesized level. -/
theorem c7_scenario1 :
    headerStyle (generate_adaptive_card alertScenario1) = some (.jstr "attention") ∧
    objField (soleItem (headerBlock (generate_adaptive_card alertScenario1))) "text" =
      some (.jstr "Test") ∧
    objField (soleItem (headerBlock (generate_adaptive_card alertScenario1))) "weight" =
      some (.jstr "Bolder") ∧
    concatInlines (agentLine (generate_adaptive_card alertScenario1)) = "Agent: srv1 (ID 1)" ∧
    objField (inlineAt (agentLine (generate_adaptive_card alertScenario1)) 0) "text" =
      some (.jstr "Agent: ") ∧
    objField (inlineAt (agentLine (generate_adaptive_card alertScenario1)) 0) "weight" =
      some (.jstr "Bolder") ∧
    objField (inlineAt (agentLine (generate_adaptive_card alertScenario1)) 2) "text" =
      some (.jstr "(ID 1)") ∧
    objField (inlineAt (agentLine (generate_adaptive_card alertScenario1)) 2) "italic" =
      some (.jbool true) ∧
    concatInlines (ruleLine (generate_adaptive_card alertScenario1)) = "Rule: 100 (Level 12)" ∧
    objField (inlineAt (ruleLine (generate_adaptive_card alertScenario1)) 0) "text" =
      some (.jstr "Rule: ") ∧
    objField (inlineAt (ruleLine (generate_adaptive_card alertScenario1)) 0) "weight" =
      some (.jstr "Bolder") ∧
    objField (inlineAt (ruleLine (generate_adaptive_card alertScenario1)) 2) "text" =
      some (.jstr "(Level 12)") ∧
    objField (inlineAt (ruleLine (generate_adaptive_card alertScenario1)) 2) "italic" =
      some (.jbool true) :=
  ⟨rfl, rfl, rfl, rfl, rfl, rfl, rfl, rfl, rfl, rfl, rfl, rfl, rfl⟩

/-- C8 counterexample: decoding is not idempotent on every string — the
double-escaped URL fragment decodes to an entity that a second decode
collapses further. -/
theorem c8_not_idempotent :
    unescape (unescape "&amp;amp;") ≠ unescape "&amp;amp;" := by decide

/-- Strings without an ampersand are fixed points of the decoder. -/
theorem unescape_eq_self_of_no_amp (s : String)
    (h : (s.data.contains '&') = false) : unescape s = s := by
  unfold unescape
  rw [h]
  simp

/-- C8 (amended): decoding the webhook URL is idempotent for every URL
whose decoded form contains no ampersand; in general a decoded URL can
contain a fresh entity (see the counterexample), so idempotence fails. -/
theorem c8_unescape_idempotent_on_clean (u : String)
    (h : ((unescape u).data.contains '&') = false) :
    unescape (unescape u) = unescape u :=
  unescape_eq_self_of_no_amp (unescape u) h

/-- C8 witness: a typical ampersand-free webhook URL. -/
theorem c8_unescape_idempotent_on_clean_witness :
    unescape (unescape "https://hooks.example.com/wh?id=1") =
      unescape "https://hooks.example.com/wh?id=1" :=
  c8_unescape_idempotent_on_clean "https://hooks.example.com/wh?id=1" (by rfl)

/-- C9: the entry point reads exactly `argv[1]` (alert file path) and
`argv[3]` (webhook URL): with those two fixed, the run equals the pipeline
on them, and appending further arguments changes nothing. -/
theorem c9_argument_consumption (readFile : String → Except String JValue)
    (post : String → PostOutcome) (args : List String) (p w : String)
    (h1 : args[1]? = some p) (h3 : args[3]? = some w) :
    handle_alert readFile post args = runPipeline readFile post p w ∧
    ∀ extra, handle_alert readFile post (args ++ extra) =
      handle_alert readFile post args := by
  have hlen : 3 < args.length := by
    rcases List.getElem?_eq_some.mp h3 with ⟨hl, _⟩
    exact hl
  constructor
  · simp [handle_alert, runPipeline, argGet, h1, h3, except_bind_ok]
  · intro extra
    have h1e : (args ++ extra)[1]? = some p := by
      rw [List.getElem?_append, if_pos (show 1 < args.length by omega)]; exact h1
    have h3e : (args ++ extra)[3]? = some w := by
      rw [List.getElem?_append, if_pos (show 3 < args.length by omega)]; exact h3
    simp [handle_alert, argGet, h1, h3, h1e, h3e, except_bind_ok]

/-- C9 witness: a five-argument invocation uses slot 1 as the path and slot
3 as the webhook, and a sixth argument changes nothing. -/
theorem c9_argument_consumption_witness :
    handle_alert readFileNone postConnFail argsExample =
      runPipeline readFileNone postConnFail "alert.json" "https://hook.example" ∧
    handle_alert readFileNone postConnFail (argsExample ++ ["more"]) =
      handle_alert readFileNone postConnFail argsExample :=
  ⟨(c9_argument_consumption readFileNone postConnFail argsExample
      "alert.json" "https://hook.example" rfl rfl).1,
   (c9_argument_consumption readFileNone postConnFail argsExample
      "alert.json" "https://hook.example" rfl rfl).2 ["more"]⟩

/-- C10: the severity function is total — every level below 4, negative
levels included, yields "accent" — the header style of every rendered card
is exactly the severity token of its rule level, and that token is always
one of the four. -/
theorem c10_severity_total (a : Alert) :
    (a.rule_level < 4 → get_severity_color a.rule_level = "accent") ∧
    headerStyle (generate_adaptive_card a) =
      some (.jstr (get_severity_color a.rule_level)) ∧
    (get_severity_color a.rule_level = "attention" ∨
     get_severity_color a.rule_level = "warning" ∨
     get_severity_color a.rule_level = "good" ∨
     get_severity_color a.rule_level = "accent") := by
  refine ⟨fun h => ?_, rfl, ?_⟩
  · unfold get_severity_color; split_ifs <;> first | rfl | omega
  · unfold get_severity_color; split_ifs <;> simp

/-- C10 witness: a negative rule level renders with the "accent" token. -/
theorem c10_severity_total_witness :
    get_severity_color alertNegativeLevel.rule_level = "accent" :=
  (c10_severity_total alertNegativeLevel).1 (by decide)

end Wazuh
